import Mathlib

deriving instance DecidableEq for Except

/-!
# Verification of the za-blog-ai server core (`src/server.ts`)

Shallow embedding of the authentication / authorization / blog-ownership
core of the Express server in `src/server.ts`:

* the token service (`jwt.sign` / `jwt.verify` with a shared secret and a
  24-hour expiry), modelled with an injective MAC in place of the HMAC;
* the two auth middlewares `authenticateToken` (strict) and
  `tryAuthenticate` (best effort);
* registration (`POST /api/auth/register`), login (`POST /api/auth/login`),
  and the Google OAuth account-resolution step of `GET /auth/google/callback`;
* the blog handlers: list (`GET /api/blogs`, anonymous and authenticated
  branches), update (`PUT /api/blogs/:id`) and delete
  (`DELETE /api/blogs/:id`), and the admin stats endpoint.

The Firestore collections are modelled as Lean lists of records; a
Firestore equality query (`where(f, '==', v)` with `limit(1)`) is
`List.find?`, and the JavaScript stable `Array.prototype.sort` is
`List.mergeSort`. JavaScript string truthiness (`undefined`/`null`/`""`
are falsy) is modelled explicitly where the code relies on it.
-/

namespace ZaBlog

/-- JavaScript truthiness of an optional string field: `undefined`/`null`
(modelled as `none`) and the empty string are falsy. -/
def truthy : Option String → Bool
  | none => false
  | some s => s != ""

/-- ASCII lowering of one character, the fragment of
`String.prototype.toLowerCase` relevant to comparisons against `'admin'`. -/
def lowerChar (c : Char) : Char :=
  if 'A' ≤ c ∧ c ≤ 'Z' then Char.ofNat (c.toNat + 32) else c

/-- Model of JavaScript `s.toLowerCase()` (ASCII fragment). -/
def toLowerCase (s : String) : String :=
  String.mk (s.data.map lowerChar)

/-- Model of JavaScript `email.split('@')[0]`: the prefix of the string up
to the first `'@'`. -/
def jsLocalPart (email : String) : String :=
  String.mk (email.data.takeWhile (fun c => c != '@'))

/-- Model of `bcrypt.hash(password, 10)`. bcrypt is an external library;
it is modelled as an injective one-way function whose output is never the
empty string, which is the contract the server relies on. -/
def bcryptHash (password : String) : String :=
  "bc." ++ password

/-- Model of `bcrypt.compare(password, hash)`: true exactly when `hash`
was produced from `password`. -/
def bcryptCompare (password hash : String) : Bool :=
  hash == bcryptHash password

/-- The JWT payload signed at login: `{ id, username, role }`
(`server.ts` lines 157-161 and 274-278). -/
structure Claims where
  id : String
  username : String
  role : String
deriving Repr, DecidableEq

/-- Model of the HMAC signature over the payload and the expiry: an
unforgeable, injective function of the secret and the signed data. -/
structure Sig where
  secret : String
  id : String
  username : String
  role : String
  exp : Nat
deriving Repr, DecidableEq

/-- The signature `jwt.sign` attaches for a given secret, claims and expiry. -/
def mkSig (secret : String) (c : Claims) (exp : Nat) : Sig :=
  { secret := secret, id := c.id, username := c.username, role := c.role, exp := exp }

/-- A serialized JWT: payload claims, expiry (seconds since epoch), and
signature. -/
structure Token where
  claims : Claims
  exp : Nat
  sig : Sig
deriving Repr, DecidableEq

/-- `jwt.sign(claims, secret, { expiresIn: '24h' })`: the expiry is 24
hours (86400 seconds) from issuance. -/
def signToken (secret : String) (c : Claims) (now : Nat) : Token :=
  { claims := c, exp := now + 86400, sig := mkSig secret c (now + 86400) }

/-- The two failure modes of `jwt.verify`. -/
inductive VerifyError
  | Invalid
  | Expired
deriving Repr, DecidableEq

/-- `jwt.verify(token, secret)` at clock time `now`: rejects a bad
signature as `Invalid`, then an expiry at or before `now` as `Expired`
(jsonwebtoken fails when `clockTimestamp >= exp`), else returns the
claims. -/
def verifyToken (secret : String) (t : Token) (now : Nat) : Except VerifyError Claims :=
  if t.sig ≠ mkSig secret t.claims t.exp then .error .Invalid
  else if t.exp ≤ now then .error .Expired
  else .ok t.claims

/-- Outcome of the strict middleware: either an HTTP rejection status or
the request proceeds with the verified claims attached as `req.user`. -/
inductive AuthOutcome
  | reject401
  | reject403
  | proceed (user : Claims)
deriving Repr, DecidableEq

/-- `authenticateToken` (server.ts lines 81-92): no bearer token → 401
`Unauthorized`; token present but `jwt.verify` fails → 403 `Forbidden`;
else proceed with the claims. -/
def authenticateToken (secret : String) (token : Option Token) (now : Nat) : AuthOutcome :=
  match token with
  | none => .reject401
  | some t =>
    match verifyToken secret t now with
    | .error _ => .reject403
    | .ok user => .proceed user

/-- `tryAuthenticate` (server.ts lines 94-105): always proceeds; the
identity is `none` (anonymous) when no token is present or verification
fails, otherwise the verified claims. -/
def tryAuthenticate (secret : String) (token : Option Token) (now : Nat) : Option Claims :=
  match token with
  | none => none
  | some t =>
    match verifyToken secret t now with
    | .error _ => none
    | .ok user => some user

/-- A document of the `users` collection. Optional fields model Firestore
fields that may be absent (`none` also stands for an explicit `null`). -/
structure User where
  id : String
  username : String
  password : Option String
  role : Option String
  email : Option String
  google_id : Option String
  avatar : Option String
  created_at : Nat
deriving Repr, DecidableEq

/-- `userData.role || 'user'`: the stored role, defaulting to `'user'`
when the field is absent or falsy. -/
def roleOr (r : Option String) : String :=
  match r with
  | some s => if s != "" then s else "user"
  | none => "user"

/-- A document of the `blogs` collection. `user_id` is the owner identity
(`none` = `null` = anonymous post); `created_at` is optional because the
authenticated list branch explicitly defends against its absence. -/
structure Blog where
  id : String
  user_id : Option String
  title : String
  content : String
  excerpt : String
  tone : String
  language : String
  created_at : Option Nat
  updated_at : Option Nat
deriving Repr, DecidableEq

/-- Errors of `POST /api/auth/register` (both reported as HTTP 400). -/
inductive RegError
  | ReservedUsername
  | DuplicateUsername
deriving Repr, DecidableEq

/-- Successful registration: the updated `users` collection and the
response body `{ id, username, role }` (server.ts line 129). -/
structure RegisterOk where
  users : List User
  id : String
  username : String
  role : String
deriving Repr, DecidableEq

/-- `POST /api/auth/register` (server.ts lines 108-134): reject a truthy
username lowercasing to `'admin'`, then a duplicate username, else store
a new user with the bcrypt hash and role `'user'`. `freshId` is the
document id Firestore assigns to the added document. -/
def register (users : List User) (freshId username password : String) (now : Nat) :
    Except RegError RegisterOk :=
  if truthy (some username) && (toLowerCase username == "admin") then
    .error .ReservedUsername
  else if (users.find? (fun u => u.username == username)).isSome then
    .error .DuplicateUsername
  else
    let newUser : User :=
      { id := freshId, username := username, password := some (bcryptHash password),
        role := some "user", email := none, google_id := none, avatar := none,
        created_at := now }
    .ok { users := users ++ [newUser], id := freshId, username := username, role := "user" }

/-- Errors of `POST /api/auth/login` (both reported as HTTP 401). -/
inductive LoginError
  | InvalidCredentials
  | SocialLoginOnly
deriving Repr, DecidableEq

/-- Successful login: the issued token and the public user projection
`{ id, username, role }` (server.ts lines 162-169). -/
structure LoginOk where
  token : Token
  id : String
  username : String
  role : String
deriving Repr, DecidableEq

/-- `POST /api/auth/login` (server.ts lines 136-174): look the user up by
username; a missing user or failed hash comparison is
`InvalidCredentials`, a record without a (truthy) password hash is the
social-login error; on success sign a token over
`{ id, username, role || 'user' }`. -/
def login (secret : String) (users : List User) (username password : String) (now : Nat) :
    Except LoginError LoginOk :=
  match users.find? (fun u => u.username == username) with
  | none => .error .InvalidCredentials
  | some u =>
    if !truthy u.password then .error .SocialLoginOnly
    else if !bcryptCompare password (u.password.getD "") then .error .InvalidCredentials
    else
      let role := roleOr u.role
      .ok { token := signToken secret { id := u.id, username := u.username, role := role } now,
            id := u.id, username := u.username, role := role }

/-- Outcome of the Google-callback account resolution: the updated `users`
collection and the resolved user document (as the handler reads it). -/
structure GoogleOutcome where
  users : List User
  user : User
deriving Repr, DecidableEq

/-- Account resolution of `GET /auth/google/callback` (server.ts lines
244-271): (1) find by `google_id`; (2) else, when an email was returned
(truthy), find by `email` and link by setting `google_id` on that record;
(3) else create a new user with username `name || email.split('@')[0]`,
role `'user'`, the Google subject id and avatar, and no password.
`none` models the handler throwing (caught as HTTP 500): in step (3) the
code evaluates `email.split('@')[0]` when `name` is falsy, which throws
if `email` is `undefined`. -/
def resolveGoogleUser (users : List User) (freshId googleId : String)
    (name email picture : Option String) (now : Nat) : Option GoogleOutcome :=
  match users.find? (fun u => u.google_id == some googleId) with
  | some u => some { users := users, user := u }
  | none =>
    match (if truthy email then users.find? (fun u => u.email == email) else none) with
    | some u =>
      let linked := { u with google_id := some googleId }
      some { users := users.map (fun v => if v.id == u.id then linked else v), user := u }
    | none =>
      match (if truthy name then name else none), email with
      | none, none => none
      | nameT, _ =>
        let uname :=
          match nameT with
          | some n => n
          | none => jsLocalPart (email.getD "")
        let newUser : User :=
          { id := freshId, username := uname, password := none, role := some "user",
            email := if truthy email then email else none,
            google_id := some googleId,
            avatar := if truthy picture then picture else none,
            created_at := now }
        some { users := users ++ [newUser], user := newUser }

/-- Descending comparison used by the authenticated list branch
(server.ts lines 315-319): `dateB - dateA` on
`created_at?.toDate?.() || new Date(0)`, i.e. later (or equal) creation
time first, with a missing timestamp read as epoch zero. -/
def blogLeDesc (a b : Blog) : Bool :=
  b.created_at.getD 0 ≤ a.created_at.getD 0

/-- Anonymous branch of `GET /api/blogs` (server.ts line 323):
`where('user_id','==',null).orderBy('created_at','desc').limit(20)`.
A Firestore `orderBy` drops documents missing the ordered field, so the
query keeps null-owner documents that have a `created_at`, sorts them by
it descending, and returns at most 20. -/
def listBlogsAnon (blogs : List Blog) : List Blog :=
  (((blogs.filter (fun b => b.user_id == none && b.created_at.isSome)).mergeSort
    blogLeDesc).take 20)

/-- Authenticated branch of `GET /api/blogs` (server.ts lines 311-321):
`where('user_id','==',req.user.id)` then an in-memory stable sort by
creation time descending (missing timestamp = epoch zero). -/
def listBlogsAuth (blogs : List Blog) (user : Claims) : List Blog :=
  (blogs.filter (fun b => b.user_id == some user.id)).mergeSort blogLeDesc

/-- Errors of the blog update/delete handlers. -/
inductive BlogErr
  | NotFound
  | Forbidden
deriving Repr, DecidableEq

/-- The update applied by `PUT /api/blogs/:id` on success (server.ts
lines 385-390): Firestore `update` merges exactly the four given fields
into the document. -/
def applyUpdate (b : Blog) (title content excerpt : String) (now : Nat) : Blog :=
  { b with title := title, content := content, excerpt := excerpt, updated_at := some now }

/-- Handler body of `PUT /api/blogs/:id` after strict auth (server.ts
lines 370-397): 404 if the document does not exist; 403 when
`req.user.role !== 'admin' && doc.user_id !== req.user.id`; else update
title/content/excerpt/updated_at of the document. -/
def updateBlog (blogs : List Blog) (user : Claims) (blogId title content excerpt : String)
    (now : Nat) : Except BlogErr (List Blog) :=
  match blogs.find? (fun b => b.id == blogId) with
  | none => .error .NotFound
  | some b =>
    if user.role != "admin" && b.user_id != some user.id then .error .Forbidden
    else .ok (blogs.map (fun c => if c.id == blogId then applyUpdate c title content excerpt now else c))

/-- Handler body of `DELETE /api/blogs/:id` after strict auth (server.ts
lines 399-419): same existence and authorization checks as update, then
delete the document. -/
def deleteBlog (blogs : List Blog) (user : Claims) (blogId : String) :
    Except BlogErr (List Blog) :=
  match blogs.find? (fun b => b.id == blogId) with
  | none => .error .NotFound
  | some b =>
    if user.role != "admin" && b.user_id != some user.id then .error .Forbidden
    else .ok (blogs.filter (fun c => c.id != blogId))

/-- HTTP statuses the modelled endpoints produce. -/
inductive Status
  | ok200
  | unauthorized401
  | forbidden403
  | notFound404
deriving Repr, DecidableEq

/-- Full `PUT /api/blogs/:id` endpoint: strict middleware, then the
handler; the pair returned is the status and the resulting `blogs`
collection (unchanged unless the handler performs the update). -/
def putBlogEndpoint (secret : String) (token : Option Token) (now : Nat)
    (blogs : List Blog) (blogId title content excerpt : String) : Status × List Blog :=
  match authenticateToken secret token now with
  | .reject401 => (.unauthorized401, blogs)
  | .reject403 => (.forbidden403, blogs)
  | .proceed user =>
    match updateBlog blogs user blogId title content excerpt now with
    | .error .NotFound => (.notFound404, blogs)
    | .error .Forbidden => (.forbidden403, blogs)
    | .ok blogs' => (.ok200, blogs')

/-- Full `DELETE /api/blogs/:id` endpoint: strict middleware, then the
handler. -/
def deleteBlogEndpoint (secret : String) (token : Option Token) (now : Nat)
    (blogs : List Blog) (blogId : String) : Status × List Blog :=
  match authenticateToken secret token now with
  | .reject401 => (.unauthorized401, blogs)
  | .reject403 => (.forbidden403, blogs)
  | .proceed user =>
    match deleteBlog blogs user blogId with
    | .error .NotFound => (.notFound404, blogs)
    | .error .Forbidden => (.forbidden403, blogs)
    | .ok blogs' => (.ok200, blogs')

/-- Full `GET /api/admin/stats` endpoint (server.ts lines 422-434):
strict middleware, an admin-role check, then the user count. -/
def adminStatsEndpoint (secret : String) (token : Option Token) (now : Nat)
    (users : List User) : Status × Option Nat :=
  match authenticateToken secret token now with
  | .reject401 => (.unauthorized401, none)
  | .reject403 => (.forbidden403, none)
  | .proceed user =>
    if user.role != "admin" then (.forbidden403, none)
    else (.ok200, some users.length)

/-! ## Sample data used by the concrete witnesses -/

/-- A local-credential user as stored by registration. -/
def aliceUser : User where
  id := "u1"
  username := "alice"
  password := some (bcryptHash "pw")
  role := some "user"
  email := some "alice@mail.com"
  google_id := none
  avatar := none
  created_at := 0

/-- A blog post owned by user `"owner"`. -/
def ownerBlog : Blog where
  id := "b1"
  user_id := some "owner"
  title := "t"
  content := "c"
  excerpt := "e"
  tone := "friendly"
  language := "en"
  created_at := some 10
  updated_at := none

/-- An anonymous (null-owner) blog post. -/
def anonBlog : Blog where
  id := "b2"
  user_id := none
  title := "t2"
  content := "c2"
  excerpt := "e2"
  tone := "casual"
  language := "vi"
  created_at := some 20
  updated_at := none

/-- Claims of a non-admin caller who owns nothing in the samples. -/
def malloryClaims : Claims where
  id := "mallory"
  username := "m"
  role := "user"

/-- A second post by the same owner with the same creation timestamp as
`ownerBlog`, to exercise sort stability. -/
def ownerBlog2 : Blog :=
  { ownerBlog with id := "b3", title := "t3" }

/-! ## Helper lemmas -/

theorem blogLeDesc_trans (a b c : Blog) (hab : blogLeDesc a b = true)
    (hbc : blogLeDesc b c = true) : blogLeDesc a c = true := by
  simp only [blogLeDesc, decide_eq_true_eq] at *
  omega

theorem blogLeDesc_total (a b : Blog) : (blogLeDesc a b || blogLeDesc b a) = true := by
  simp only [blogLeDesc, Bool.or_eq_true, decide_eq_true_eq]
  omega

/-! ## Claims -/

/-- **C7.** Token issuance (`jwt.sign` with `expiresIn: '24h'`) encodes the
claims `{id, username, role}` with an expiry exactly 24 hours (86400
seconds) after issuance; verification of such a token at any time at or
after the expiry fails with `Expired`, and before the expiry returns
exactly the encoded claims. -/
theorem token_expiry_spec (secret : String) (c : Claims) (now t : Nat) :
    (signToken secret c now).exp = now + 86400 ∧
    (now + 86400 ≤ t → verifyToken secret (signToken secret c now) t = .error .Expired) ∧
    (t < now + 86400 → verifyToken secret (signToken secret c now) t = .ok c) := by
  refine ⟨rfl, fun h => ?_, fun h => ?_⟩
  · simp [verifyToken, signToken, h]
  · simp [verifyToken, signToken, Nat.not_le.mpr h]

/-- Witness for C7: a token signed at time 0 expires at 86400, fails as
`Expired` at time 90000, and still verifies at time 100. -/
theorem token_expiry_spec_witness :
    (signToken "s" ⟨"i", "al", "user"⟩ 0).exp = 0 + 86400 ∧
    verifyToken "s" (signToken "s" ⟨"i", "al", "user"⟩ 0) 90000 = .error .Expired ∧
    verifyToken "s" (signToken "s" ⟨"i", "al", "user"⟩ 0) 100 = .ok ⟨"i", "al", "user"⟩ :=
  ⟨(token_expiry_spec "s" ⟨"i", "al", "user"⟩ 0 90000).1,
   (token_expiry_spec "s" ⟨"i", "al", "user"⟩ 0 90000).2.1 (by decide),
   (token_expiry_spec "s" ⟨"i", "al", "user"⟩ 0 100).2.2 (by decide)⟩

/-- **C8.** In best-effort mode (`tryAuthenticate`), a request with no
bearer token proceeds with the anonymous identity `none`, and a request
whose token fails verification (invalid or expired) also proceeds as
anonymous instead of being rejected — `tryAuthenticate` has no rejection
outcome at all. -/
theorem try_authenticate_best_effort (secret : String) (now : Nat) :
    tryAuthenticate secret none now = none ∧
    ∀ (t : Token) (e : VerifyError), verifyToken secret t now = .error e →
      tryAuthenticate secret (some t) now = none := by
  refine ⟨rfl, fun t e h => ?_⟩
  simp [tryAuthenticate, h]

/-- Witness for C8: no token, and a token expired at time 90000, both
resolve to the anonymous identity. -/
theorem try_authenticate_best_effort_witness :
    tryAuthenticate "s" none 0 = none ∧
    tryAuthenticate "s" (some (signToken "s" ⟨"i", "al", "user"⟩ 0)) 90000 = none :=
  ⟨(try_authenticate_best_effort "s" 0).1,
   (try_authenticate_best_effort "s" 90000).2 (signToken "s" ⟨"i", "al", "user"⟩ 0)
     .Expired (by decide)⟩

/-- **C10.** In strict mode (PUT `/api/blogs/:id`, DELETE
`/api/blogs/:id`, GET `/api/admin/stats`), a request with no bearer token
is rejected with 401 and a request whose token fails verification is
rejected with 403; in both cases the handler is not reached: the blog
collection is returned unchanged and the stats endpoint reports nothing. -/
theorem strict_auth_rejections (secret : String) (now : Nat) (blogs : List Blog)
    (users : List User) (blogId title content excerpt : String) :
    (putBlogEndpoint secret none now blogs blogId title content excerpt =
        (.unauthorized401, blogs) ∧
      deleteBlogEndpoint secret none now blogs blogId = (.unauthorized401, blogs) ∧
      adminStatsEndpoint secret none now users = (.unauthorized401, none)) ∧
    ∀ (t : Token) (e : VerifyError), verifyToken secret t now = .error e →
      putBlogEndpoint secret (some t) now blogs blogId title content excerpt =
        (.forbidden403, blogs) ∧
      deleteBlogEndpoint secret (some t) now blogs blogId = (.forbidden403, blogs) ∧
      adminStatsEndpoint secret (some t) now users = (.forbidden403, none) := by
  refine ⟨⟨rfl, rfl, rfl⟩, fun t e h => ?_⟩
  refine ⟨?_, ?_, ?_⟩ <;>
    simp [putBlogEndpoint, deleteBlogEndpoint, adminStatsEndpoint, authenticateToken, h]

/-- Witness for C10: with an expired token, the three strict endpoints
answer 403 and leave the collections unread; with no token they answer
401. -/
theorem strict_auth_rejections_witness :
    putBlogEndpoint "s" none 0 [ownerBlog] "b1" "T" "C" "E" = (.unauthorized401, [ownerBlog]) ∧
    putBlogEndpoint "s" (some (signToken "s" ⟨"i", "al", "user"⟩ 0)) 90000 [ownerBlog]
      "b1" "T" "C" "E" = (.forbidden403, [ownerBlog]) ∧
    deleteBlogEndpoint "s" (some (signToken "s" ⟨"i", "al", "user"⟩ 0)) 90000 [ownerBlog]
      "b1" = (.forbidden403, [ownerBlog]) ∧
    adminStatsEndpoint "s" (some (signToken "s" ⟨"i", "al", "user"⟩ 0)) 90000 [aliceUser] =
      (.forbidden403, none) :=
  ⟨(strict_auth_rejections "s" 0 [ownerBlog] [aliceUser] "b1" "T" "C" "E").1.1,
   ((strict_auth_rejections "s" 90000 [ownerBlog] [aliceUser] "b1" "T" "C" "E").2
     (signToken "s" ⟨"i", "al", "user"⟩ 0) .Expired (by decide)).1,
   ((strict_auth_rejections "s" 90000 [ownerBlog] [aliceUser] "b1" "T" "C" "E").2
     (signToken "s" ⟨"i", "al", "user"⟩ 0) .Expired (by decide)).2.1,
   ((strict_auth_rejections "s" 90000 [ownerBlog] [aliceUser] "b1" "T" "C" "E").2
     (signToken "s" ⟨"i", "al", "user"⟩ 0) .Expired (by decide)).2.2⟩

/-- **C5.** Registration with any username that case-insensitively equals
`'admin'` fails with `ReservedUsername`; no user record is created (the
error branch returns before touching the collection, and the error result
carries no updated collection). -/
theorem register_reserved_admin (users : List User) (freshId username password : String)
    (now : Nat) (h : toLowerCase username = "admin") :
    register users freshId username password now = .error .ReservedUsername := by
  have hne : username ≠ "" := by
    intro he
    rw [he] at h
    exact absurd h (by decide)
  have h1 : truthy (some username) = true := by
    simp [truthy, hne]
  have h2 : (toLowerCase username == "admin") = true := by simp [h]
  simp [register, h1, h2]

/-- Witness for C5: registering `"AdMiN"` is rejected as reserved. -/
theorem register_reserved_admin_witness :
    register [aliceUser] "u2" "AdMiN" "pw2" 7 = .error .ReservedUsername :=
  register_reserved_admin [aliceUser] "u2" "AdMiN" "pw2" 7 (by decide)

/-- **C1.** For blog update and delete by an authenticated caller: a
missing document id fails with `NotFound`; otherwise a caller who is
neither the owner nor an admin gets `Forbidden` regardless of the payload
(title/content/excerpt universally quantified); and when the caller is
the owner or an admin the mutation proceeds. -/
theorem blog_mutation_owner_or_admin (blogs : List Blog) (user : Claims)
    (blogId title content excerpt : String) (now : Nat) :
    (blogs.find? (fun b => b.id == blogId) = none →
      updateBlog blogs user blogId title content excerpt now = .error .NotFound ∧
      deleteBlog blogs user blogId = .error .NotFound) ∧
    (∀ b, blogs.find? (fun b => b.id == blogId) = some b →
      user.role ≠ "admin" → b.user_id ≠ some user.id →
      updateBlog blogs user blogId title content excerpt now = .error .Forbidden ∧
      deleteBlog blogs user blogId = .error .Forbidden) ∧
    (∀ b, blogs.find? (fun b => b.id == blogId) = some b →
      (b.user_id = some user.id ∨ user.role = "admin") →
      (∃ blogs', updateBlog blogs user blogId title content excerpt now = .ok blogs') ∧
      (∃ blogs', deleteBlog blogs user blogId = .ok blogs')) := by
  refine ⟨fun hn => ?_, fun b hf hr ho => ?_, fun b hf hok => ?_⟩
  · constructor <;> simp [updateBlog, deleteBlog, hn]
  · have hcond : (user.role != "admin" && b.user_id != some user.id) = true := by
      simp [bne_iff_ne, hr, ho]
    constructor <;> simp [updateBlog, deleteBlog, hf, hcond]
  · have hcond : (user.role != "admin" && b.user_id != some user.id) = false := by
      rcases hok with h | h <;> simp [h]
    refine ⟨⟨blogs.map (fun c => if c.id == blogId
        then applyUpdate c title content excerpt now else c), ?_⟩,
      ⟨blogs.filter (fun c => c.id != blogId), ?_⟩⟩ <;>
      simp [updateBlog, deleteBlog, hf, hcond]

/-- Witness for C1: on a store holding only a blog owned by `"owner"`,
the non-admin caller `mallory` gets `Forbidden` from both update and
delete, a missing id gets `NotFound`, and the owner's update goes
through. -/
theorem blog_mutation_owner_or_admin_witness :
    (updateBlog [ownerBlog] malloryClaims "b1" "T" "C" "E" 9 = .error .Forbidden ∧
      deleteBlog [ownerBlog] malloryClaims "b1" = .error .Forbidden) ∧
    (updateBlog [ownerBlog] malloryClaims "nope" "T" "C" "E" 9 = .error .NotFound ∧
      deleteBlog [ownerBlog] malloryClaims "nope" = .error .NotFound) ∧
    (∃ blogs', updateBlog [ownerBlog] ⟨"owner", "o", "user"⟩ "b1" "T" "C" "E" 9 = .ok blogs') :=
  ⟨(blog_mutation_owner_or_admin [ownerBlog] malloryClaims "b1" "T" "C" "E" 9).2.1
     ownerBlog (by decide) (by decide) (by decide),
   (blog_mutation_owner_or_admin [ownerBlog] malloryClaims "nope" "T" "C" "E" 9).1
     (by decide),
   ((blog_mutation_owner_or_admin [ownerBlog] ⟨"owner", "o", "user"⟩ "b1" "T" "C" "E" 9).2.2
     ownerBlog (by decide) (Or.inl (by decide))).1⟩

/-- **C9.** A successful `PUT /api/blogs/:id` rewrites only the title,
content, excerpt and update timestamp of the addressed document: every
document keeps its id, owner identity, tone, language and creation
timestamp; documents with a different id are completely unchanged; and
the addressed document gets exactly the payload fields and the new update
timestamp. In particular the owner identity is immutable under update. -/
theorem update_blog_frame (blogs blogs' : List Blog) (user : Claims)
    (blogId title content excerpt : String) (now : Nat)
    (h : updateBlog blogs user blogId title content excerpt now = .ok blogs') :
    List.Forall₂ (fun b b' =>
      b'.id = b.id ∧ b'.user_id = b.user_id ∧ b'.tone = b.tone ∧ b'.language = b.language ∧
      b'.created_at = b.created_at ∧
      (b.id = blogId → b'.title = title ∧ b'.content = content ∧ b'.excerpt = excerpt ∧
        b'.updated_at = some now) ∧
      (b.id ≠ blogId → b' = b)) blogs blogs' := by
  rw [updateBlog] at h
  split at h
  · exact absurd h (by simp)
  split at h
  · exact absurd h (by simp)
  have hm := (Except.ok.inj h).symm
  subst hm
  rw [List.forall₂_map_right_iff, List.forall₂_same]
  intro b _
  by_cases hid : b.id = blogId
  · simp [hid, applyUpdate]
  · have hbe : (b.id == blogId) = false := by simp [hid]
    simp [hbe, hid]

/-- Witness for C9: updating `ownerBlog` as its owner keeps id, owner,
tone, language and creation time, and rewrites the payload fields. -/
theorem update_blog_frame_witness :
    List.Forall₂ (fun b b' =>
      b'.id = b.id ∧ b'.user_id = b.user_id ∧ b'.tone = b.tone ∧ b'.language = b.language ∧
      b'.created_at = b.created_at ∧
      (b.id = "b1" → b'.title = "T" ∧ b'.content = "C" ∧ b'.excerpt = "E" ∧
        b'.updated_at = some 9) ∧
      (b.id ≠ "b1" → b' = b)) [ownerBlog, anonBlog]
      [applyUpdate ownerBlog "T" "C" "E" 9, anonBlog] :=
  update_blog_frame [ownerBlog, anonBlog] _ ⟨"owner", "o", "user"⟩ "b1" "T" "C" "E" 9
    (by decide)

/-- **C6.** Any successfully registered `(username, password)` pair can
log in afterwards: login succeeds, returns the same id, username and
role that registration returned, and the issued token's claims encode
exactly that id, username and role. -/
theorem register_login_roundtrip (secret : String) (users : List User)
    (freshId username password : String) (now later : Nat) (r : RegisterOk)
    (h : register users freshId username password now = .ok r) :
    ∃ out : LoginOk, login secret r.users username password later = .ok out ∧
      out.token.claims = ⟨r.id, r.username, r.role⟩ ∧
      out.id = r.id ∧ out.username = r.username ∧ out.role = r.role := by
  rw [register] at h
  by_cases hg : (truthy (some username) && (toLowerCase username == "admin")) = true
  · rw [if_pos hg] at h; exact absurd h (by simp)
  · rw [if_neg hg] at h
    by_cases hd : (users.find? (fun u => u.username == username)).isSome = true
    · rw [if_pos hd] at h; exact absurd h (by simp)
    · rw [if_neg hd] at h
      have hr := (Except.ok.inj h).symm
      subst hr
      have hfind : users.find? (fun u => u.username == username) = none :=
        Option.not_isSome_iff_eq_none.mp hd
      have hbh : bcryptHash password ≠ "" := by
        intro he
        have hl := congrArg String.length he
        rw [bcryptHash, String.length_append] at hl
        have h3 : ("bc." : String).length = 3 := rfl
        have h0 : ("" : String).length = 0 := rfl
        omega
      refine ⟨{ token := signToken secret ⟨freshId, username, "user"⟩ later,
                id := freshId, username := username, role := "user" }, ?_, rfl, rfl, rfl, rfl⟩
      simp [login, List.find?_append, hfind, List.find?_cons, truthy, hbh,
        bcryptCompare, roleOr]

/-- Witness for C6: registering `alice/pw` into an empty store and then
logging in returns a token over the registered id, username and role. -/
theorem register_login_roundtrip_witness :
    ∃ out : LoginOk,
      login "s" (RegisterOk.users ⟨[⟨"u1", "alice", some (bcryptHash "pw"), some "user",
        none, none, none, 0⟩], "u1", "alice", "user"⟩) "alice" "pw" 5 = .ok out ∧
      out.token.claims = ⟨"u1", "alice", "user"⟩ ∧
      out.id = "u1" ∧ out.username = "alice" ∧ out.role = "user" :=
  register_login_roundtrip "s" [] "u1" "alice" "pw" 0 5
    ⟨[⟨"u1", "alice", some (bcryptHash "pw"), some "user", none, none, none, 0⟩],
      "u1", "alice", "user"⟩ (by decide)

/-- **C2.** The anonymous branch of `GET /api/blogs` returns only posts
whose owner identity is null, in descending creation-time order (newest
first), and at most 20 of them. -/
theorem list_anon_spec (blogs : List Blog) :
    (∀ b ∈ listBlogsAnon blogs, b.user_id = none) ∧
    List.Pairwise (fun a b => b.created_at.getD 0 ≤ a.created_at.getD 0)
      (listBlogsAnon blogs) ∧
    (listBlogsAnon blogs).length ≤ 20 := by
  refine ⟨fun b hb => ?_, ?_, ?_⟩
  · have hb1 : b ∈ (blogs.filter
        (fun b => b.user_id == none && b.created_at.isSome)).mergeSort blogLeDesc :=
      List.mem_of_mem_take hb
    have hb2 := (List.mem_filter.mp (List.mem_mergeSort.mp hb1)).2
    simp only [Bool.and_eq_true, beq_iff_eq] at hb2
    exact hb2.1
  · have hs := List.sorted_mergeSort blogLeDesc_trans blogLeDesc_total
      (blogs.filter (fun b => b.user_id == none && b.created_at.isSome))
    exact (List.Pairwise.sublist (List.take_sublist _ _) hs).imp
      (fun hab => by simpa [blogLeDesc] using hab)
  · exact List.length_take_le _ _

/-- Witness for C2: on a store with one owned and one anonymous post, the
anonymous listing contains the anonymous post (whose owner is null), is
sorted, and has at most 20 entries. -/
theorem list_anon_spec_witness :
    anonBlog.user_id = none ∧
    List.Pairwise (fun a b => b.created_at.getD 0 ≤ a.created_at.getD 0)
      (listBlogsAnon [ownerBlog, anonBlog]) ∧
    (listBlogsAnon [ownerBlog, anonBlog]).length ≤ 20 :=
  ⟨(list_anon_spec [ownerBlog, anonBlog]).1 anonBlog
     (by simp [listBlogsAnon, List.mergeSort, ownerBlog, anonBlog]),
   (list_anon_spec [ownerBlog, anonBlog]).2.1,
   (list_anon_spec [ownerBlog, anonBlog]).2.2⟩

/-- **C3.** The authenticated branch of `GET /api/blogs` returns exactly
the posts whose owner identity equals the caller's id (a permutation of
that filter, and membership is equivalent to being such a post), sorted
by creation time descending with a missing timestamp read as epoch zero;
the sort is stable: posts with equal keys keep their stored relative
order. It holds for every role, including admin. -/
theorem list_auth_spec (blogs : List Blog) (user : Claims) :
    (listBlogsAuth blogs user).Perm
      (blogs.filter (fun b => b.user_id == some user.id)) ∧
    (∀ b, b ∈ listBlogsAuth blogs user ↔ b ∈ blogs ∧ b.user_id = some user.id) ∧
    List.Pairwise (fun a b => b.created_at.getD 0 ≤ a.created_at.getD 0)
      (listBlogsAuth blogs user) ∧
    ∀ x y, [x, y].Sublist (blogs.filter (fun b => b.user_id == some user.id)) →
      x.created_at.getD 0 = y.created_at.getD 0 →
      [x, y].Sublist (listBlogsAuth blogs user) := by
  refine ⟨List.mergeSort_perm _ _, fun b => ?_, ?_, fun x y hs hk => ?_⟩
  · rw [listBlogsAuth, List.mem_mergeSort, List.mem_filter]
    simp
  · exact (List.sorted_mergeSort blogLeDesc_trans blogLeDesc_total _).imp
      (fun hab => by simpa [blogLeDesc] using hab)
  · have hxy : List.Pairwise (fun a b => blogLeDesc a b = true) [x, y] := by
      simp [blogLeDesc, hk]
    exact List.sublist_mergeSort blogLeDesc_trans blogLeDesc_total hxy hs

/-- Witness for C3: listing as `"owner"` over a store with two posts by
`"owner"` (equal creation times) and one anonymous post is a permutation
of the owner's posts, contains `ownerBlog`, and keeps the stored order of
the two equal-key posts. -/
theorem list_auth_spec_witness :
    (listBlogsAuth [ownerBlog, anonBlog, ownerBlog2] ⟨"owner", "o", "user"⟩).Perm
      ([ownerBlog, anonBlog, ownerBlog2].filter (fun b => b.user_id == some "owner")) ∧
    ownerBlog ∈ listBlogsAuth [ownerBlog, anonBlog, ownerBlog2] ⟨"owner", "o", "user"⟩ ∧
    [ownerBlog, ownerBlog2].Sublist
      (listBlogsAuth [ownerBlog, anonBlog, ownerBlog2] ⟨"owner", "o", "user"⟩) :=
  ⟨(list_auth_spec [ownerBlog, anonBlog, ownerBlog2] ⟨"owner", "o", "user"⟩).1,
   ((list_auth_spec [ownerBlog, anonBlog, ownerBlog2] ⟨"owner", "o", "user"⟩).2.1
     ownerBlog).mpr ⟨by decide, by decide⟩,
   (list_auth_spec [ownerBlog, anonBlog, ownerBlog2] ⟨"owner", "o", "user"⟩).2.2.2
     ownerBlog ownerBlog2 (by decide) (by decide)⟩

/-- **C4.** The Google-callback account resolution is first-match-wins:
(1) a user found by Google subject id is used as is; (2) otherwise, when
the provider returned a (truthy) email and a user with that email exists,
that record gets the subject id written onto it and is used — the
collection keeps its length, no duplicate is created; (3) otherwise a new
user is created with role `'user'`, the subject id and avatar set, and no
password hash. -/
theorem google_account_resolution (users : List User) (freshId googleId : String)
    (name email picture : Option String) (now : Nat) :
    (∀ u, users.find? (fun v => v.google_id == some googleId) = some u →
      resolveGoogleUser users freshId googleId name email picture now =
        some { users := users, user := u }) ∧
    (users.find? (fun v => v.google_id == some googleId) = none →
      truthy email = true →
      ∀ u, users.find? (fun v => v.email == email) = some u →
        resolveGoogleUser users freshId googleId name email picture now =
          some { users := users.map (fun v => if v.id == u.id
              then { u with google_id := some googleId } else v), user := u }) ∧
    (users.find? (fun v => v.google_id == some googleId) = none →
      (truthy email = true → users.find? (fun v => v.email == email) = none) →
      (truthy name = true ∨ email ≠ none) →
      ∃ nu, resolveGoogleUser users freshId googleId name email picture now =
          some { users := users ++ [nu], user := nu } ∧
        nu.id = freshId ∧ nu.role = some "user" ∧ nu.google_id = some googleId ∧
        nu.password = none ∧ nu.avatar = (if truthy picture then picture else none)) := by
  refine ⟨fun u hu => by simp [resolveGoogleUser, hu], fun hg he u hu => ?_,
    fun hg hne hcr => ?_⟩
  · simp [resolveGoogleUser, hg, he, hu]
  · have hlinked : (if truthy email then users.find? (fun v => v.email == email)
        else none) = none := by
      by_cases he : truthy email = true
      · simp [he, hne he]
      · simp [he]
    by_cases hn : truthy name = true
    · cases name with
      | none => simp [truthy] at hn
      | some n =>
        refine ⟨{ id := freshId, username := n, password := none, role := some "user",
                  email := if truthy email then email else none,
                  google_id := some googleId,
                  avatar := if truthy picture then picture else none,
                  created_at := now }, ?_, rfl, rfl, rfl, rfl, rfl⟩
        simp [resolveGoogleUser, hg, hlinked, hn]
    · cases email with
      | none =>
        rcases hcr with h | h
        · exact absurd h hn
        · exact absurd rfl h
      | some e =>
        refine ⟨{ id := freshId, username := jsLocalPart e, password := none,
                  role := some "user",
                  email := if truthy (some e) then some e else none,
                  google_id := some googleId,
                  avatar := if truthy picture then picture else none,
                  created_at := now }, ?_, rfl, rfl, rfl, rfl, rfl⟩
        have hn' : truthy name = false := by
          cases h : truthy name
          · rfl
          · exact absurd h hn
        simp [resolveGoogleUser, hg, hlinked, hn']

/-- Witness for C4: a Google login with an email matching the existing
local-credential user `alice` (who has no subject id yet) links the
subject id onto her record instead of creating a duplicate. -/
theorem google_account_resolution_witness :
    resolveGoogleUser [aliceUser] "f1" "g9" (some "Alice") (some "alice@mail.com") none 5 =
      some { users := [{ aliceUser with google_id := some "g9" }], user := aliceUser } := by
  have h := (google_account_resolution [aliceUser] "f1" "g9" (some "Alice")
    (some "alice@mail.com") none 5).2.1 (by decide) (by decide) aliceUser (by decide)
  simpa [aliceUser] using h

end ZaBlog
